import Mathlib

/-!
Verification of the yatube blog application (`posts/views.py`) against its
natural-language specification.  The data model and the view functions are
embedded shallowly: each Django view becomes a pure Lean function over an
explicit database state; a request is the requester's user id plus the view's
URL / form arguments; a 404 becomes `Option.none`; an ORM exception becomes
`Except.error`.
-/

namespace Yatube

/-- Modelled from the spec: `models.py` is not among the sources; the User
entity is owned by the external authentication collaborator and is identified
by an id and a unique username (views resolve authors by username). -/
structure User where
  id : Nat
  username : String
deriving DecidableEq

/-- Modelled from the spec: a Group has an id, a title, a unique URL-safe slug
and a description; `group_posts` resolves it by slug. -/
structure Grp where
  id : Nat
  title : String
  slug : String
  description : String
deriving DecidableEq

/-- Modelled from the spec: a Post has text, a publication timestamp, an
optional image, an optional group reference and an author reference; default
ordering is newest-first (the `posts` list of the database state is kept in
that query order). -/
structure Post where
  id : Nat
  text : String
  pubDate : Nat
  author : Nat
  group : Option Nat
  image : Option String
deriving DecidableEq

/-- Modelled from the spec: a Comment belongs to one Post and one author. -/
structure Comment where
  id : Nat
  text : String
  author : Nat
  post : Nat
deriving DecidableEq

/-- Modelled from the spec: a Follow references a follower (`user`) and a
followed author; the data layer does not enforce uniqueness of the pair. -/
structure Follow where
  id : Nat
  user : Nat
  author : Nat
deriving DecidableEq

/-- The relational store the views read and write.  `nextId` models the
autoincrement primary-key counter. -/
structure DB where
  users : List User
  groups : List Grp
  posts : List Post
  follows : List Follow
  comments : List Comment
  nextId : Nat
deriving DecidableEq

/-- Modelled from the spec: `settings.py` is not among the sources.  The spec
says the first-page size is the externally configured constant
`POSTS_ON_PAGE`; the standard configuration consistent with the repository's
own paginator test over 13 seed posts is 10. -/
def POSTS_ON_PAGE : Nat := 10

/-- Modelled from the spec: `settings.py` is not among the sources.  The spec
says the subsequent-page size over 13 seed posts is the externally configured
constant `POSTS_ON_SECOND_PAGE`; the configuration consistent with the
repository's own paginator test is 3. -/
def POSTS_ON_SECOND_PAGE : Nat := 3

/-- Django `Paginator.num_pages`: `ceil(count / per_page)`, but at least one
page (an empty first page is allowed). -/
def numPages (count per : Nat) : Nat :=
  max 1 ((count + per - 1) / per)

/-- Django `Paginator.page(n)`: the slice of the ordered collection holding
items `(n-1)*per .. n*per-1`. -/
def pageItems (posts : List Post) (per n : Nat) : List Post :=
  (posts.drop ((n - 1) * per)).take per

/-- Django `Paginator.get_page`: a missing or non-integer page parameter gives
page 1, a page number below 1 or beyond the last page gives the last page. -/
def get_page (posts : List Post) (per : Nat) (pageNumber : Option Nat) :
    List Post :=
  let np := numPages posts.length per
  let n := match pageNumber with
    | none => 1
    | some n => if n < 1 then np else if np < n then np else n
  pageItems posts per n

/-- `get_page_context` (views.py:13-21): paginates a queryset at
`settings.POSTS_ON_PAGE` and returns the page object for the request's
`page` parameter. -/
def get_page_context (posts : List Post) (pageNumber : Option Nat) :
    List Post :=
  get_page posts POSTS_ON_PAGE pageNumber

/-- The queryset of `index` (views.py:24-26): all posts. -/
def index_posts (db : DB) : List Post :=
  db.posts

/-- The queryset of `group_posts` (views.py:29-37) after resolving the group:
the group's posts. -/
def group_posts_q (db : DB) (g : Grp) : List Post :=
  db.posts.filter (fun p => p.group == some g.id)

/-- The queryset of `profile` (views.py:40-53) after resolving the author:
the author's posts. -/
def profile_posts (db : DB) (a : User) : List Post :=
  db.posts.filter (fun p => p.author == a.id)

/-- The queryset of `follow_index` (views.py:118-122):
`Post.objects.filter(author__following__user=request.user)`, the posts whose
author has a Follow record with `user = request.user`. -/
def follow_index_posts (db : DB) (requester : Nat) : List Post :=
  db.posts.filter (fun p =>
    db.follows.any (fun f => f.user == requester && f.author == p.author))

/-- The redirect targets issued by the mutation and follow views. -/
inductive Redirect where
  | followIndex
  | postDetail (postId : Nat)
  | profilePage (username : String)
deriving DecidableEq

/-- Django `get_object_or_404(User, username=username)`: the stored user with
that username, `none` meaning HTTP 404. -/
def findUser (db : DB) (username : String) : Option User :=
  db.users.find? (fun a => a.username == username)

/-- The predicate of `Follow.objects.filter(user=..., author=...)`. -/
def pairPred (u a : Nat) : Follow → Bool :=
  fun f => f.user == u && f.author == a

/-- The number of Follow records linking a (follower, author) pair. -/
def countPair (db : DB) (u a : Nat) : Nat :=
  (db.follows.filter (pairPred u a)).length

/-- Django `Follow.objects.filter(user=..., author=...).exists()`. -/
def followExists (db : DB) (u a : Nat) : Bool :=
  db.follows.any (pairPred u a)

/-- `profile_follow` (views.py:125-132): resolves the target author by
username (404 if absent); if the target is not the requester (Django compares
users by primary key) and no Follow record links the pair, creates one;
always redirects to `follow_index`. -/
def profile_follow (db : DB) (requester : Nat) (username : String) :
    Option (DB × Redirect) :=
  match findUser db username with
  | none => none
  | some author =>
    let db' :=
      if author.id != requester && !followExists db requester author.id then
        { db with
            follows := db.follows ++ [⟨db.nextId, requester, author.id⟩]
            nextId := db.nextId + 1 }
      else db
    some (db', Redirect.followIndex)

/-- Django `Follow.objects.get(user=..., author=...)`: the single matching
record, raising `DoesNotExist` on zero matches and
`MultipleObjectsReturned` on several. -/
def follow_get (db : DB) (u a : Nat) : Except String Follow :=
  match db.follows.filter (pairPred u a) with
  | [] => Except.error "DoesNotExist"
  | [f] => Except.ok f
  | _ => Except.error "MultipleObjectsReturned"

/-- `profile_unfollow` (views.py:135-140): resolves the target author (404
if absent); if a matching Follow record exists, fetches the single record
with `.get` and deletes it; always redirects to `follow_index`.  The
single-object fetch raises when several records match. -/
def profile_unfollow (db : DB) (requester : Nat) (username : String) :
    Option (Except String (DB × Redirect)) :=
  match findUser db username with
  | none => none
  | some author =>
    if followExists db requester author.id then
      match follow_get db requester author.id with
      | Except.error e => some (Except.error e)
      | Except.ok f =>
        some (Except.ok ({ db with follows := db.follows.erase f },
                         Redirect.followIndex))
    else
      some (Except.ok (db, Redirect.followIndex))

/-- Django `get_object_or_404(Post, pk=post_id)`. -/
def findPost (db : DB) (postId : Nat) : Option Post :=
  db.posts.find? (fun p => p.id == postId)

/-- Modelled from the spec: `forms.py` is not among the sources.  A
`PostForm` submission carries the text, group and image fields the spec says
the form binds (§4.3). -/
structure PostSubmission where
  text : String
  group : Option Nat
  image : Option String
deriving DecidableEq

/-- Modelled from the spec: PostForm validity — the text is required and a
submitted group must be one of the stored groups; the image is optional. -/
def postform_valid (db : DB) (s : PostSubmission) : Bool :=
  s.text != "" && (match s.group with
    | none => true
    | some g => db.groups.any (fun x => x.id == g))

/-- Saving a bound PostForm on the existing instance: text and group are set
from the submission; an absent image upload keeps the stored image. -/
def apply_edit (p : Post) (s : PostSubmission) : Post :=
  { p with
      text := s.text
      group := s.group
      image := match s.image with
        | none => p.image
        | some i => some i }

/-- The outcome of `post_edit` beside a 404. -/
inductive EditOutcome where
  | redirectDetail (postId : Nat)
  | renderEditForm
deriving DecidableEq

/-- `post_edit` (views.py:85-103): loads the post (404 if absent); a
non-author is silently redirected to the detail view; for the author a valid
submission is saved onto the instance and the view redirects to the detail
view; an invalid submission re-renders the edit form without saving. -/
def post_edit (db : DB) (requester : Nat) (postId : Nat)
    (s : PostSubmission) : Option (DB × EditOutcome) :=
  match findPost db postId with
  | none => none
  | some post =>
    if post.author != requester then
      some (db, EditOutcome.redirectDetail postId)
    else if postform_valid db s then
      some ({ db with posts := (db.posts.map
                (fun p => if p.id == postId then apply_edit p s else p)) },
            EditOutcome.redirectDetail postId)
    else
      some (db, EditOutcome.renderEditForm)

/-- Modelled from the spec: `forms.py` is not among the sources.  A
`CommentForm` submission carries the comment text, which is required. -/
structure CommentSubmission where
  text : String
deriving DecidableEq

/-- Modelled from the spec: CommentForm validity — the text is required. -/
def commentform_valid (s : CommentSubmission) : Bool :=
  s.text != ""

/-- `add_comment` (views.py:106-115): loads the post (404 if absent); a valid
submission creates a Comment with author = requester and post = target, an
invalid one creates nothing; either way the view redirects to the post's
detail view. -/
def add_comment (db : DB) (requester : Nat) (postId : Nat)
    (s : CommentSubmission) : Option (DB × Redirect) :=
  match findPost db postId with
  | none => none
  | some _ =>
    let db' :=
      if commentform_valid s then
        { db with
            comments :=
              db.comments ++ [⟨db.nextId, s.text, requester, postId⟩]
            nextId := db.nextId + 1 }
      else db
    some (db', Redirect.postDetail postId)

/-- Modelled from the spec: the home-listing cache window is 20 seconds in
the observed configuration; the caching itself is not in `views.py` (it
lives with the index template, which is not among the sources). -/
def CACHE_SECONDS : Nat := 20

/-- A cache entry: the rendered home listing and the second it was stored. -/
structure CacheEntry where
  content : String
  storedAt : Nat
deriving DecidableEq

/-- The rendered home listing: the requested page of all posts. -/
def renderIndex (db : DB) (pageNumber : Option Nat) : String :=
  String.intercalate "\n"
    ((get_page_context (index_posts db) pageNumber).map (fun p => p.text))

/-- Modelled from the spec: serving the home listing through the 20-second
cache keyed on the rendered output.  A fresh entry is served verbatim; an
absent or expired entry is re-rendered from the store and cached at the
current time.  Writes to the store never touch the cache. -/
def cached_index (db : DB) (cache : Option CacheEntry) (now : Nat) :
    String × CacheEntry :=
  match cache with
  | some e =>
    if now < e.storedAt + CACHE_SECONDS then (e.content, e)
    else (renderIndex db none, ⟨renderIndex db none, now⟩)
  | none => (renderIndex db none, ⟨renderIndex db none, now⟩)

/-- A concrete two-group store for exercising `post_edit`. -/
def dbEdit : DB :=
  { users := [⟨1, "auth"⟩]
    groups := [⟨1, "g1", "s1", "d"⟩, ⟨2, "g2", "s2", "d"⟩]
    posts := [⟨1, "old", 0, 1, some 1, none⟩]
    follows := []
    comments := []
    nextId := 2 }

/-- The store `dbEdit` after the author edits post 1 into group 2. -/
def dbEditAfter : DB :=
  { dbEdit with posts := [⟨1, "new", 0, 1, some 2, none⟩] }

/-- A page-1 plus page-2 size computation shared by the listing views. -/
def twoPageSizes (posts : List Post) : Nat × Nat :=
  ((get_page_context posts (some 1)).length,
   (get_page_context posts (some 2)).length)

/-- A concrete store with 13 posts by one author in one group, and one
follower of that author. -/
def db13 : DB :=
  { users := [⟨1, "auth"⟩, ⟨2, "reader"⟩]
    groups := [⟨1, "t", "test-slug", "d"⟩]
    posts := (List.range 13).map (fun i => ⟨i + 1, "post", i, 1, some 1, none⟩)
    follows := [⟨1, 2, 1⟩]
    comments := []
    nextId := 20 }

end Yatube

namespace Yatube

lemma twoPageSizes_of_13 (posts : List Post) (h : posts.length = 13) :
    twoPageSizes posts = (POSTS_ON_PAGE, POSTS_ON_SECOND_PAGE) := by
  simp only [twoPageSizes, get_page_context, get_page, numPages, pageItems,
    POSTS_ON_PAGE, POSTS_ON_SECOND_PAGE, h]
  norm_num [List.length_take, List.length_drop, h]

/-- C1: the feed of `follow_index` contains exactly the posts whose author is
followed by the requester: a post is in the feed iff it is a stored post and
some Follow record links the requester to its author. -/
theorem followIndex_feed_exact (db : DB) (u : Nat) (p : Post) :
    p ∈ follow_index_posts db u ↔
      p ∈ db.posts ∧ ∃ f ∈ db.follows, f.user = u ∧ f.author = p.author := by
  simp [follow_index_posts, List.mem_filter, List.any_eq_true]

/-- C2: over a collection of 13 posts, every listing view (index, group_posts,
profile, follow_index) renders exactly `POSTS_ON_PAGE` items on page 1 and
exactly `POSTS_ON_SECOND_PAGE` items on page 2. -/
theorem listing_pagination_counts (db : DB) (g : Grp) (a : User) (u : Nat)
    (hidx : (index_posts db).length = 13)
    (hgrp : (group_posts_q db g).length = 13)
    (hprof : (profile_posts db a).length = 13)
    (hfol : (follow_index_posts db u).length = 13) :
    twoPageSizes (index_posts db) = (POSTS_ON_PAGE, POSTS_ON_SECOND_PAGE) ∧
    twoPageSizes (group_posts_q db g) = (POSTS_ON_PAGE, POSTS_ON_SECOND_PAGE) ∧
    twoPageSizes (profile_posts db a) = (POSTS_ON_PAGE, POSTS_ON_SECOND_PAGE) ∧
    twoPageSizes (follow_index_posts db u) =
      (POSTS_ON_PAGE, POSTS_ON_SECOND_PAGE) :=
  ⟨twoPageSizes_of_13 _ hidx, twoPageSizes_of_13 _ hgrp,
   twoPageSizes_of_13 _ hprof, twoPageSizes_of_13 _ hfol⟩

lemma followExists_iff_one_le (db : DB) (u a : Nat) :
    followExists db u a = true ↔ 1 ≤ countPair db u a := by
  rw [followExists, countPair, List.any_eq_true]
  constructor
  · rintro ⟨x, hx, hpx⟩
    have hpos := List.length_pos.mpr
      (List.ne_nil_of_mem (List.mem_filter.mpr ⟨hx, hpx⟩))
    omega
  · intro h
    have hne : db.follows.filter (pairPred u a) ≠ [] := by
      intro hnil
      rw [hnil] at h
      simp at h
    rcases List.exists_mem_of_ne_nil _ hne with ⟨x, hx⟩
    exact ⟨x, (List.mem_filter.mp hx).1, (List.mem_filter.mp hx).2⟩

lemma followExists_eq_false_iff (db : DB) (u a : Nat) :
    followExists db u a = false ↔ countPair db u a = 0 := by
  rw [← Bool.not_eq_true, followExists_iff_one_le]
  omega

lemma erase_eq_filter_not {p : Follow → Bool} {l : List Follow} {f : Follow}
    (h : l.filter p = [f]) : l.erase f = l.filter (fun x => !(p x)) := by
  induction l with
  | nil => simp at h
  | cons x xs ih =>
    by_cases hx : p x = true
    · rw [List.filter_cons_of_pos hx] at h
      injection h with h1 h2
      subst h1
      rw [List.erase_cons_head, List.filter_cons_of_neg (by simpa using hx)]
      rw [List.filter_eq_nil_iff] at h2
      rw [List.filter_eq_self.mpr (fun a ha => by simpa using h2 a ha)]
    · rw [List.filter_cons_of_neg hx] at h
      have hf : p f = true :=
        (List.mem_filter.mp (h ▸ List.mem_cons_self f [])).2
      have hxf : x ≠ f := fun he => hx (he ▸ hf)
      rw [List.erase_cons_tail (by simpa using hxf),
        List.filter_cons_of_pos (by simpa using hx), ih h]

lemma unfollow_of_le_one (db : DB) (r : Nat) (username : String)
    (author : User) (hfind : findUser db username = some author)
    (hinv : countPair db r author.id ≤ 1) :
    profile_unfollow db r username =
      some (Except.ok
        ({ db with follows :=
            db.follows.filter (fun f => !(pairPred r author.id f)) },
         Redirect.followIndex)) := by
  have hcases : db.follows.filter (pairPred r author.id) = [] ∨
      ∃ f, db.follows.filter (pairPred r author.id) = [f] := by
    rcases hl : db.follows.filter (pairPred r author.id) with _ | ⟨f, t⟩
    · exact Or.inl rfl
    · rcases t with _ | ⟨g, t⟩
      · exact Or.inr ⟨f, rfl⟩
      · rw [countPair, hl] at hinv
        simp at hinv
  rcases hcases with hl | ⟨f, hl⟩
  · have hex : followExists db r author.id = false := by
      rw [followExists_eq_false_iff, countPair, hl]
      rfl
    have hfl : db.follows.filter (fun x => !(pairPred r author.id x)) =
        db.follows := by
      rw [List.filter_eq_self]
      intro a ha
      simpa using List.filter_eq_nil_iff.mp hl a ha
    simp [profile_unfollow, hfind, hex, hfl]
  · have hex : followExists db r author.id = true := by
      rw [followExists_iff_one_le, countPair, hl]
      simp
    have hget : follow_get db r author.id = Except.ok f := by
      simp [follow_get, hl]
    simp [profile_unfollow, hfind, hex, hget, erase_eq_filter_not hl]

/-- C2 witness: the concrete 13-post store satisfies all four hypotheses and
the conclusion. -/
theorem listing_pagination_counts_witness :
    (index_posts db13).length = 13 ∧
    (group_posts_q db13 ⟨1, "t", "test-slug", "d"⟩).length = 13 ∧
    (profile_posts db13 ⟨1, "auth"⟩).length = 13 ∧
    (follow_index_posts db13 2).length = 13 ∧
    twoPageSizes (index_posts db13) = (POSTS_ON_PAGE, POSTS_ON_SECOND_PAGE) :=
  ⟨by decide, by decide, by decide, by decide,
   (listing_pagination_counts db13 ⟨1, "t", "test-slug", "d"⟩ ⟨1, "auth"⟩ 2
     (by decide) (by decide) (by decide) (by decide)).1⟩

/-- C3 counterexample: the claim is false.  There is no call of
`profile_follow` in which the resolved target author equals the requester and
the follow table changes: views.py:128 tests `author != request.user` before
creating, so self-follow IS guarded in code. -/
theorem selfFollow_unguarded_cex :
    ¬ ∃ (db : DB) (r : Nat) (username : String) (author : User) (db' : DB),
      findUser db username = some author ∧ author.id = r ∧
      profile_follow db r username = some (db', Redirect.followIndex) ∧
      db'.follows ≠ db.follows := by
  rintro ⟨db, r, username, author, db', hfind, heq, hcall, hne⟩
  rw [profile_follow, hfind] at hcall
  simp only [heq, bne_self_eq_false, Bool.false_and, if_neg,
    Bool.false_eq_true, not_false_eq_true, Option.some.injEq,
    Prod.mk.injEq] at hcall
  exact hne (by rw [← hcall.1])

/-- C3 amended: self-follow is guarded in code: for every authenticated
request in which the resolved target author equals the requester,
`profile_follow` creates no Follow record, leaves the store unchanged, and
redirects to `follow_index`. -/
theorem selfFollow_guarded (db : DB) (r : Nat) (username : String)
    (author : User) (hfind : findUser db username = some author)
    (heq : author.id = r) :
    profile_follow db r username = some (db, Redirect.followIndex) := by
  rw [profile_follow, hfind]
  simp [heq]

/-- C3 witness: a concrete requester targeting their own username leaves the
store unchanged. -/
theorem selfFollow_guarded_witness :
    findUser db13 "auth" = some ⟨1, "auth"⟩ ∧
    profile_follow db13 1 "auth" = some (db13, Redirect.followIndex) :=
  ⟨by decide, selfFollow_guarded db13 1 "auth" ⟨1, "auth"⟩ (by decide) rfl⟩

/-- C4: `profile_follow` creates a Follow record only if the target is not
the requester and no record links the pair; in that case it creates exactly
one record with the correct follower and author references, and repeating
the follow leaves the table unchanged, so no duplicate pair is produced. -/
theorem profileFollow_unique (db : DB) (r : Nat) (username : String)
    (author : User) (hfind : findUser db username = some author) :
    ((author.id = r ∨ 1 ≤ countPair db r author.id) →
      profile_follow db r username = some (db, Redirect.followIndex)) ∧
    (author.id ≠ r → countPair db r author.id = 0 →
      ∃ db₁,
        profile_follow db r username = some (db₁, Redirect.followIndex) ∧
        db₁.follows = db.follows ++ [⟨db.nextId, r, author.id⟩] ∧
        countPair db₁ r author.id = 1 ∧
        profile_follow db₁ r username = some (db₁, Redirect.followIndex)) := by
  constructor
  · rintro (heq | hge)
    · rw [profile_follow, hfind]
      simp [heq]
    · have hex : followExists db r author.id = true :=
        (followExists_iff_one_le db r author.id).mpr hge
      rw [profile_follow, hfind]
      simp [hex]
  · intro hne h0
    have hex : followExists db r author.id = false :=
      (followExists_eq_false_iff db r author.id).mpr h0
    refine ⟨{ db with
        follows := db.follows ++ [⟨db.nextId, r, author.id⟩]
        nextId := db.nextId + 1 }, ?_, rfl, ?_, ?_⟩
    · rw [profile_follow, hfind]
      simp [hex, hne, Ne.symm hne]
    · show ((db.follows ++ [(⟨db.nextId, r, author.id⟩ : Follow)]).filter
        (pairPred r author.id)).length = 1
      rw [List.filter_append]
      have hnil : db.follows.filter (pairPred r author.id) = [] := by
        rw [countPair] at h0
        exact List.length_eq_zero.mp h0
      rw [hnil]
      simp [pairPred]
    · have hge1 : 1 ≤ countPair { db with
          follows := db.follows ++ [⟨db.nextId, r, author.id⟩]
          nextId := db.nextId + 1 } r author.id := by
        show 1 ≤ ((db.follows ++ [(⟨db.nextId, r, author.id⟩ : Follow)]).filter
          (pairPred r author.id)).length
        rw [List.filter_append]
        simp [pairPred]
      have hex1 := (followExists_iff_one_le _ r author.id).mpr hge1
      rw [profile_follow]
      rw [show findUser { db with
          follows := db.follows ++ [⟨db.nextId, r, author.id⟩]
          nextId := db.nextId + 1 } username = some author from hfind]
      simp [hex1]

/-- C4 witness: a concrete fresh follow creates exactly one correctly linked
record and a repeat is a no-op. -/
theorem profileFollow_unique_witness :
    findUser db13 "auth" = some ⟨1, "auth"⟩ ∧ (1 : Nat) ≠ 3 ∧
    countPair db13 3 1 = 0 ∧
    (∃ db₁,
      profile_follow db13 3 "auth" = some (db₁, Redirect.followIndex) ∧
      db₁.follows = db13.follows ++ [⟨db13.nextId, 3, 1⟩] ∧
      countPair db₁ 3 1 = 1 ∧
      profile_follow db₁ 3 "auth" = some (db₁, Redirect.followIndex)) :=
  ⟨by decide, by decide, by decide,
   (profileFollow_unique db13 3 "auth" ⟨1, "auth"⟩ (by decide)).2
     (by decide) (by decide)⟩

/-- C5: under the at-most-one-record invariant, `profile_unfollow` deletes
the Follow record linking requester and target when one exists and leaves
the table unchanged when none does; running it again on the result is a
no-op, so unfollow is idempotent. -/
theorem profileUnfollow_idempotent (db : DB) (r : Nat) (username : String)
    (author : User) (hfind : findUser db username = some author)
    (hinv : countPair db r author.id ≤ 1) :
    ∃ db', profile_unfollow db r username =
        some (Except.ok (db', Redirect.followIndex)) ∧
      db'.follows =
        db.follows.filter (fun f => !(pairPred r author.id f)) ∧
      (countPair db r author.id = 0 → db' = db) ∧
      countPair db' r author.id = 0 ∧
      profile_unfollow db' r username =
        some (Except.ok (db', Redirect.followIndex)) := by
  have hfilter0 : ∀ l : List Follow,
      (l.filter (fun x => !(pairPred r author.id x))).filter
        (pairPred r author.id) = [] := by
    intro l
    rw [List.filter_eq_nil_iff]
    intro a ha
    simpa using (List.mem_filter.mp ha).2
  have h0' : countPair { db with follows :=
      (db.follows.filter (fun f => !(pairPred r author.id f))) } r author.id
      = 0 := by
    show ((db.follows.filter (fun f => !(pairPred r author.id f))).filter
      (pairPred r author.id)).length = 0
    rw [hfilter0]
    rfl
  refine ⟨{ db with follows :=
      (db.follows.filter (fun f => !(pairPred r author.id f))) },
    unfollow_of_le_one db r username author hfind hinv, rfl, ?_, h0', ?_⟩
  · intro h0
    have hnil : db.follows.filter (pairPred r author.id) = [] := by
      rw [countPair] at h0
      exact List.length_eq_zero.mp h0
    have hself : db.follows.filter (fun f => !(pairPred r author.id f)) =
        db.follows := by
      rw [List.filter_eq_self]
      intro a ha
      simpa using List.filter_eq_nil_iff.mp hnil a ha
    rw [hself]
  · have h2 := unfollow_of_le_one
      { db with follows :=
          (db.follows.filter (fun f => !(pairPred r author.id f))) }
      r username author hfind (by rw [h0']; omega)
    rw [h2]
    have hidem : ({ db with follows :=
        (db.follows.filter (fun f => !(pairPred r author.id f))) } : DB).follows.filter
          (fun f => !(pairPred r author.id f)) =
        db.follows.filter (fun f => !(pairPred r author.id f)) := by
      show (db.follows.filter (fun f => !(pairPred r author.id f))).filter
        (fun f => !(pairPred r author.id f)) = _
      rw [List.filter_eq_self]
      intro a ha
      exact (List.mem_filter.mp ha).2
    rw [hidem]

/-- C5 witness: a concrete single follow is deleted and a second unfollow is
a no-op. -/
theorem profileUnfollow_idempotent_witness :
    findUser db13 "auth" = some ⟨1, "auth"⟩ ∧ countPair db13 2 1 ≤ 1 ∧
    (∃ db', profile_unfollow db13 2 "auth" =
        some (Except.ok (db', Redirect.followIndex)) ∧
      db'.follows =
        db13.follows.filter (fun f => !(pairPred 2 1 f)) ∧
      (countPair db13 2 1 = 0 → db' = db13) ∧
      countPair db' 2 1 = 0 ∧
      profile_unfollow db' 2 "auth" =
        some (Except.ok (db', Redirect.followIndex))) :=
  ⟨by decide, by decide,
   profileUnfollow_idempotent db13 2 "auth" ⟨1, "auth"⟩ (by decide)
     (by decide)⟩

/-- C10: the non-error behaviour of `profile_unfollow` requires the
at-most-one-record invariant: with two or more Follow records on the same
(follower, author) pair the single-object lookup after the existence check
raises `MultipleObjectsReturned` instead of deleting, while with at most one
record the view returns a redirect without error. -/
theorem profileUnfollow_duplicate_error (db : DB) (r : Nat)
    (username : String) (author : User)
    (hfind : findUser db username = some author) :
    (2 ≤ countPair db r author.id →
      profile_unfollow db r username =
        some (Except.error "MultipleObjectsReturned")) ∧
    (countPair db r author.id ≤ 1 →
      ∃ db', profile_unfollow db r username =
        some (Except.ok (db', Redirect.followIndex))) := by
  constructor
  · intro hdup
    rcases hl : db.follows.filter (pairPred r author.id) with _ | ⟨f, t⟩
    · rw [countPair, hl] at hdup
      simp at hdup
    · rcases t with _ | ⟨g, t⟩
      · rw [countPair, hl] at hdup
        simp at hdup
      · have hex : followExists db r author.id = true := by
          rw [followExists_iff_one_le, countPair, hl]
          simp
        have hget : follow_get db r author.id =
            Except.error "MultipleObjectsReturned" := by
          simp [follow_get, hl]
        simp [profile_unfollow, hfind, hex, hget]
  · intro hinv
    exact ⟨_, unfollow_of_le_one db r username author hfind hinv⟩

/-- C10 witness: with two duplicate records on the pair the view errors
instead of deleting. -/
theorem profileUnfollow_duplicate_error_witness :
    findUser { db13 with follows := [⟨1, 2, 1⟩, ⟨2, 2, 1⟩] } "auth" =
      some ⟨1, "auth"⟩ ∧
    2 ≤ countPair { db13 with follows := [⟨1, 2, 1⟩, ⟨2, 2, 1⟩] } 2 1 ∧
    profile_unfollow { db13 with follows := [⟨1, 2, 1⟩, ⟨2, 2, 1⟩] } 2 "auth" =
      some (Except.error "MultipleObjectsReturned") :=
  ⟨by decide, by decide,
   (profileUnfollow_duplicate_error
     { db13 with follows := [⟨1, 2, 1⟩, ⟨2, 2, 1⟩] } 2 "auth" ⟨1, "auth"⟩
     (by decide)).1 (by decide)⟩

/-- C6: a non-author's edit attempt is redirected to the post's detail view
and changes no stored data whatsoever: the store, hence the post's text,
group, image and author, is returned unchanged. -/
theorem postEdit_nonauthor_frame (db : DB) (r postId : Nat)
    (s : PostSubmission) (post : Post)
    (hfind : findPost db postId = some post) (hne : post.author ≠ r) :
    post_edit db r postId s = some (db, EditOutcome.redirectDetail postId) := by
  rw [post_edit, hfind]
  simp [hne]

/-- C6 witness: a concrete non-author edit leaves the store untouched. -/
theorem postEdit_nonauthor_frame_witness :
    findPost dbEdit 1 = some ⟨1, "old", 0, 1, some 1, none⟩ ∧
    (1 : Nat) ≠ 9 ∧
    post_edit dbEdit 9 1 ⟨"new", none, none⟩ =
      some (dbEdit, EditOutcome.redirectDetail 1) :=
  ⟨by decide, by decide,
   postEdit_nonauthor_frame dbEdit 9 1 ⟨"new", none, none⟩
     ⟨1, "old", 0, 1, some 1, none⟩ (by decide) (by decide)⟩

/-- C7 counterexample: the claim fails as stated.  The edit form also binds
the submitted group, so a valid authenticated edit by the author that
carries a different group changes the post's group: post 1 of `dbEdit` sits
in group 1, the author's valid submission carries group 2, and after
`post_edit` the stored post sits in group 2. -/
theorem postEdit_group_changed_cex :
    findPost dbEdit 1 = some ⟨1, "old", 0, 1, some 1, none⟩ ∧
    postform_valid dbEdit ⟨"new", some 2, none⟩ = true ∧
    post_edit dbEdit 1 1 ⟨"new", some 2, none⟩ =
      some (dbEditAfter, EditOutcome.redirectDetail 1) ∧
    findPost dbEditAfter 1 = some ⟨1, "new", 0, 1, some 2, none⟩ := by
  refine ⟨by decide, by decide, ?_, by decide⟩
  decide

/-- C7 amended: a valid authenticated edit submission by the post's author
sets the post's text, group and image from the submission while preserving
the post's author, and leaves every other post untouched; the group is
preserved exactly when the submission carries the post's current group. -/
theorem postEdit_author_update (db : DB) (r postId : Nat)
    (s : PostSubmission) (post : Post)
    (hfind : findPost db postId = some post) (hauth : post.author = r)
    (hvalid : postform_valid db s = true) :
    ∃ db', post_edit db r postId s =
        some (db', EditOutcome.redirectDetail postId) ∧
      db'.posts = db.posts.map
        (fun p => if p.id == postId then apply_edit p s else p) ∧
      (apply_edit post s).text = s.text ∧
      (apply_edit post s).author = post.author ∧
      (apply_edit post s).group = s.group := by
  refine ⟨{ db with posts := (db.posts.map
    (fun p => if p.id == postId then apply_edit p s else p)) },
    ?_, rfl, rfl, rfl, rfl⟩
  rw [post_edit, hfind]
  simp [hauth, hvalid]

/-- C7 witness: a concrete author edit that resubmits the current group
changes the text and keeps author and group. -/
theorem postEdit_author_update_witness :
    findPost dbEdit 1 = some ⟨1, "old", 0, 1, some 1, none⟩ ∧
    postform_valid dbEdit ⟨"new", some 1, none⟩ = true ∧
    (∃ db', post_edit dbEdit 1 1 ⟨"new", some 1, none⟩ =
        some (db', EditOutcome.redirectDetail 1) ∧
      db'.posts = dbEdit.posts.map
        (fun p => if p.id == 1 then apply_edit p ⟨"new", some 1, none⟩
          else p) ∧
      (apply_edit ⟨1, "old", 0, 1, some 1, none⟩
        ⟨"new", some 1, none⟩).text = "new" ∧
      (apply_edit ⟨1, "old", 0, 1, some 1, none⟩
        ⟨"new", some 1, none⟩).author = 1 ∧
      (apply_edit ⟨1, "old", 0, 1, some 1, none⟩
        ⟨"new", some 1, none⟩).group = some 1) :=
  ⟨by decide, by decide,
   postEdit_author_update dbEdit 1 1 ⟨"new", some 1, none⟩
     ⟨1, "old", 0, 1, some 1, none⟩ (by decide) rfl (by decide)⟩

/-- C8: on an existing post, `add_comment` always redirects to the post's
detail view; a valid submission appends exactly one Comment whose author is
the requester and whose post is the target, an invalid submission leaves the
store unchanged and surfaces no error. -/
theorem addComment_behaviour (db : DB) (r postId : Nat)
    (s : CommentSubmission) (post : Post)
    (hfind : findPost db postId = some post) :
    (commentform_valid s = true →
      add_comment db r postId s =
        some ({ db with
            comments := (db.comments ++ [⟨db.nextId, s.text, r, postId⟩])
            nextId := db.nextId + 1 },
          Redirect.postDetail postId)) ∧
    (commentform_valid s = false →
      add_comment db r postId s = some (db, Redirect.postDetail postId)) := by
  constructor
  · intro hv
    rw [add_comment, hfind]
    simp [hv]
  · intro hv
    rw [add_comment, hfind]
    simp [hv]

/-- C8 witness: a concrete valid comment is appended with the correct
references and a concrete empty comment changes nothing. -/
theorem addComment_behaviour_witness :
    findPost dbEdit 1 = some ⟨1, "old", 0, 1, some 1, none⟩ ∧
    commentform_valid ⟨"hi"⟩ = true ∧
    add_comment dbEdit 7 1 ⟨"hi"⟩ =
      some ({ dbEdit with
          comments := (dbEdit.comments ++ [⟨dbEdit.nextId, "hi", 7, 1⟩])
          nextId := dbEdit.nextId + 1 },
        Redirect.postDetail 1) ∧
    commentform_valid ⟨""⟩ = false ∧
    add_comment dbEdit 7 1 ⟨""⟩ = some (dbEdit, Redirect.postDetail 1) :=
  ⟨by decide, by decide,
   (addComment_behaviour dbEdit 7 1 ⟨"hi"⟩ ⟨1, "old", 0, 1, some 1, none⟩
     (by decide)).1 (by decide),
   by decide,
   (addComment_behaviour dbEdit 7 1 ⟨""⟩ ⟨1, "old", 0, 1, some 1, none⟩
     (by decide)).2 (by decide)⟩

/-- C9: within the cache window every request to the home listing returns
the cached bytes unchanged, whatever happened to the post store in between;
once the window elapses, or when the cache is cleared, the listing is
re-rendered from the current store. -/
theorem indexCache_staleness (db₁ db₂ : DB) (e : CacheEntry) (t₁ t₂ t₃ : Nat)
    (h₁ : t₁ < e.storedAt + CACHE_SECONDS)
    (h₂ : t₂ < e.storedAt + CACHE_SECONDS)
    (h₃ : e.storedAt + CACHE_SECONDS ≤ t₃) :
    (cached_index db₁ (some e) t₁).1 = (cached_index db₂ (some e) t₂).1 ∧
    (cached_index db₂ (some e) t₂) = (e.content, e) ∧
    (cached_index db₂ (some e) t₃).1 = renderIndex db₂ none ∧
    (cached_index db₂ none t₂).1 = renderIndex db₂ none := by
  have h₃' : ¬ t₃ < e.storedAt + CACHE_SECONDS := Nat.not_lt.mpr h₃
  simp [cached_index, h₁, h₂, h₃']

/-- C9 witness: a concrete pair of requests 15 seconds apart inside the
window return identical bytes although every post was deleted in between,
and a request after the window re-renders. -/
theorem indexCache_staleness_witness :
    (0 : Nat) < 0 + CACHE_SECONDS ∧ (15 : Nat) < 0 + CACHE_SECONDS ∧
    (0 : Nat) + CACHE_SECONDS ≤ 25 ∧
    ((cached_index db13 (some ⟨"cached page", 0⟩) 0).1 =
      (cached_index { db13 with posts := [] }
        (some ⟨"cached page", 0⟩) 15).1 ∧
     (cached_index { db13 with posts := [] }
        (some ⟨"cached page", 0⟩) 15) = ("cached page", ⟨"cached page", 0⟩) ∧
     (cached_index { db13 with posts := [] }
        (some ⟨"cached page", 0⟩) 25).1 =
      renderIndex { db13 with posts := [] } none ∧
     (cached_index { db13 with posts := [] } none 15).1 =
      renderIndex { db13 with posts := [] } none) :=
  ⟨by decide, by decide, by decide,
   indexCache_staleness db13 { db13 with posts := [] } ⟨"cached page", 0⟩
     0 15 25 (by decide) (by decide) (by decide)⟩

end Yatube
